import Mathlib

/-!
# Verification of the ride-dispatch service (`rides.service.ts`)

A shallow embedding of the ride lifecycle service of this repository:
request, accept, driver status updates, passenger cancellation, the three
periodic processes (stale-ride reaper, driver-hoarding reaper, scheduled-ride
activator) and the settlement engine (wallet payment, cash commission).

Modelling conventions:
* Persistent state is the list of ride rows (`List Ride`), plus the
  driver-live-location rows where needed.  A Supabase conditional update
  (`update ... .eq(...)/.is(...)` followed by `.single()`) is embedded as
  `condUpdate`: it rewrites every matching row and returns the updated row
  only when exactly one row matched (`.single()` errors on 0 or 2+ rows).
* Monetary amounts and coordinates are `ℚ`; timestamps are `Int`
  (milliseconds, mirroring `Date.now()`); ids are `Nat`.
* Fallible collaborators (the fare RPC, `decrement_balance`,
  `increment_balance`, the `transactions` insert, the profile/balance read)
  are oracle inputs: a `Bool`/`Option` argument tells the embedded function
  whether that call succeeded, and the embedding reproduces the source's
  control flow on both outcomes.
* JavaScript truthiness tests on optional numbers (`!lat`, `!floorPrice`,
  `offeredFare && ...`, `scheduledTime ? ...`) are embedded explicitly:
  a value is falsy when it is absent or equal to 0.
* The floating-point great-circle distance helper
  (`getDistanceFromLatLonInKm`) is kept abstract: the embedded
  `updateRideStatus` takes the distance function as a parameter, and the
  theorems quantify over it.
-/

namespace MyRide

/-- Ride lifecycle states, exactly the `status` column values of the source. -/
inductive RideStatus where
  | PENDING
  | SCHEDULED
  | ACCEPTED
  | ARRIVED
  | IN_PROGRESS
  | COMPLETED
  | CANCELLED
  | NO_DRIVERS_AVAILABLE
deriving DecidableEq, Repr

/-- `payment_status` column values. -/
inductive PaymentStatus where
  | UNPAID
  | PAID
  | PAYMENT_FAILED
  | COMMISSION_OWED
deriving DecidableEq, Repr

/-- `payment_method` column values. -/
inductive PaymentMethod where
  | CASH
  | WALLET
deriving DecidableEq, Repr

/-- A row of the `rides` table.  Columns that no claim touches
(addresses, the H3 search-area array) are omitted; every column the
service reads or writes in the verified operations is present. -/
structure Ride where
  id : Nat
  passenger_id : Nat
  driver_id : Option Nat
  pickup_lat : ℚ
  pickup_lng : ℚ
  dropoff_lat : ℚ
  dropoff_lng : ℚ
  fare_estimate : ℚ
  payment_method : PaymentMethod
  payment_status : PaymentStatus
  status : RideStatus
  scheduled_time : Option Int
  dispatch_batch : Nat
  last_offer_sent_at : Int
  created_at : Int
  updated_at : Int
  note : Option String
  cancellation_reason : Option String
deriving DecidableEq, Repr

/-- A row of the `transactions` ledger table. -/
structure Txn where
  driver_id : Nat
  amount : ℚ
  description : String
  ride_id : Nat
deriving DecidableEq, Repr

/-- JavaScript truthiness of an optional number: absent, and the number 0,
are falsy. -/
def jsTruthy : Option ℚ → Bool
  | none => false
  | some v => v != 0

/-- A Supabase conditional update followed by `.select().single()`:
every row matching `cond` is rewritten by `f`; the updated row is returned
only when exactly one row matched (otherwise `.single()` yields no data and
the caller sees a failure). -/
def condUpdate (rides : List Ride) (cond : Ride → Bool) (f : Ride → Ride) :
    Option Ride × List Ride :=
  (match rides.filter cond with
   | [r] => some (f r)
   | _ => none,
   rides.map fun x => if cond x then f x else x)

/-! ## Settlement engine -/

/-- Commission rate used throughout the service: `fare * 0.12`. -/
def commissionOf (fare : ℚ) : ℚ := fare * (12 / 100)

/-- Observable effects of `processWalletPayment`. -/
structure WalletOutcome where
  /-- Amount requested from the passenger via `decrement_balance`. -/
  debitAttempt : ℚ
  /-- Amount requested for the driver via `increment_balance`;
  the call is always made. -/
  creditAttempt : ℚ
  /-- Ledger line whose insert is attempted (`none` when the driver credit
  failed, so no insert is attempted at all). -/
  ledgerAttempt : Option Txn
  /-- Ledger lines actually appended (the insert result is discarded by the
  source, so its own failure is silent). -/
  ledger : List Txn
  /-- `payment_status` written back onto the ride row. -/
  finalPaymentStatus : PaymentStatus
deriving Repr

/-- `processWalletPayment(rideId, fare, passengerId, driverId)`:
attempt to debit the passenger the full fare (`pOk` = that RPC succeeded);
on failure do NOT return early, just downgrade the final payment status to
`PAYMENT_FAILED`; always attempt to credit the driver `fare - 12%`
(`dOk` = that RPC succeeded); attempt the commission ledger insert only when
the driver credit succeeded (`txnOk` = that insert succeeded); finally write
the payment status on the ride. -/
def processWalletPayment (rideId : Nat) (fare : ℚ) (passengerId driverId : Nat)
    (pOk dOk txnOk : Bool) : WalletOutcome :=
  let finalPaymentStatus := if pOk then PaymentStatus.PAID else PaymentStatus.PAYMENT_FAILED
  let commission := commissionOf fare
  let driverEarnings := fare - commission
  let line : Txn :=
    { driver_id := driverId
      amount := -commission
      description := "Ride Commission (12%) - Wallet Ride"
      ride_id := rideId }
  { debitAttempt := fare
    creditAttempt := driverEarnings
    ledgerAttempt := if dOk then some line else none
    ledger := if dOk && txnOk then [line] else []
    finalPaymentStatus := finalPaymentStatus }

/-- Observable effects of `processCashCommission`. -/
structure CashOutcome where
  /-- Amount requested from the driver via `decrement_balance`. -/
  debitAttempt : ℚ
  /-- Ledger line whose insert is attempted (`none` when the debit failed,
  so no insert is attempted at all). -/
  ledgerAttempt : Option Txn
  /-- Ledger lines actually appended (the attempt can itself fail;
  that failure is only logged). -/
  ledger : List Txn
  /-- `payment_status` written back onto the ride row. -/
  finalPaymentStatus : PaymentStatus
deriving Repr

/-- `processCashCommission(rideId, fare, driverId)`: attempt to debit the
driver the 12% commission (`deductOk` = that RPC succeeded); on failure mark
`COMMISSION_OWED` and attempt no ledger insert; on success attempt the
ledger insert (`txnOk` = the insert succeeded; its failure is only logged)
and mark `PAID`; finally write the payment status on the ride.
The function itself never raises. -/
def processCashCommission (rideId : Nat) (fare : ℚ) (driverId : Nat)
    (deductOk txnOk : Bool) : CashOutcome :=
  let commission := commissionOf fare
  if deductOk then
    let line : Txn :=
      { driver_id := driverId
        amount := -commission
        description := "Ride Commission (12%) - Cash Ride"
        ride_id := rideId }
    { debitAttempt := commission
      ledgerAttempt := some line
      ledger := if txnOk then [line] else []
      finalPaymentStatus := PaymentStatus.PAID }
  else
    { debitAttempt := commission
      ledgerAttempt := none
      ledger := []
      finalPaymentStatus := PaymentStatus.COMMISSION_OWED }

/-! ## Ride state-machine operations -/

/-- Structured error kinds (§7 taxonomy) to which the service's thrown
exceptions are mapped. -/
inductive RideError where
  | InvalidInput
  | OutstandingDebt
  | FareUnavailable
  | InsufficientBalance
  | NotFound
  | Unavailable
  | Forbidden
  | TooFarFromPickup
deriving DecidableEq, Repr

/-- `validateCoordinates`: succeeds exactly when latitude is within
[-90, 90] and longitude within [-180, 180]. -/
def validCoords (lat lng : ℚ) : Bool :=
  !(decide (lat < -90) || decide (90 < lat) || decide (lng < -180) || decide (180 < lng))

/-- The hybrid pricing block of `requestRide`: start from the floor price;
when an offered fare is present and truthy (nonzero) and strictly exceeds
the floor, take the offer; otherwise keep the floor. -/
def resolvePrice (floorPrice : ℚ) (offeredFare : Option ℚ) : ℚ :=
  match offeredFare with
  | none => floorPrice
  | some v => if v != 0 then (if floorPrice < v then v else floorPrice) else floorPrice

/-- Observable outcome of `requestRide`. -/
structure RequestOutcome where
  result : Except RideError Ride
  rides : List Ride
  /-- whether `find_and_offer_ride` was invoked for the new ride. -/
  matcherCalled : Bool
deriving Repr

/-- `requestRide`: validate both coordinate pairs; call the fare RPC
(its outcome is the oracle `fareResult`, `none` = RPC error); block the
passenger if any of their rides has `payment_status = PAYMENT_FAILED`
(this check runs before the fare result is inspected, as in the source);
reject when the fare RPC failed or returned a falsy price; resolve the
final price; for WALLET, reject when no profile row or balance below the
final price; insert the ride as SCHEDULED when a (truthy) scheduled time
is given, else PENDING, with `dispatch_batch = 1` and a fresh offer
timestamp; trigger the matcher only for non-scheduled rides.
`payment_status` of the inserted row is the column default UNPAID. -/
def requestRide (rides : List Ride) (passengerId : Nat)
    (pickupLat pickupLng dropoffLat dropoffLng : ℚ)
    (paymentMethod : PaymentMethod) (note : Option String)
    (offeredFare : Option ℚ) (scheduledTime : Option Int)
    (fareResult : Option ℚ) (balance : Option ℚ)
    (newId : Nat) (now : Int) : RequestOutcome :=
  if !(validCoords pickupLat pickupLng && validCoords dropoffLat dropoffLng) then
    ⟨.error .InvalidInput, rides, false⟩
  else if rides.any (fun r =>
      r.passenger_id == passengerId && r.payment_status == PaymentStatus.PAYMENT_FAILED) then
    ⟨.error .OutstandingDebt, rides, false⟩
  else
    match fareResult with
    | none => ⟨.error .FareUnavailable, rides, false⟩
    | some floorPrice =>
      if floorPrice == 0 then ⟨.error .FareUnavailable, rides, false⟩
      else
        let finalPrice := resolvePrice floorPrice offeredFare
        if paymentMethod == PaymentMethod.WALLET &&
            (match balance with
             | none => true
             | some b => decide (b < finalPrice)) then
          ⟨.error .InsufficientBalance, rides, false⟩
        else
          let initialStatus :=
            match scheduledTime with
            | some _ => RideStatus.SCHEDULED
            | none => RideStatus.PENDING
          let newRide : Ride :=
            { id := newId
              passenger_id := passengerId
              driver_id := none
              pickup_lat := pickupLat
              pickup_lng := pickupLng
              dropoff_lat := dropoffLat
              dropoff_lng := dropoffLng
              fare_estimate := finalPrice
              payment_method := paymentMethod
              payment_status := PaymentStatus.UNPAID
              status := initialStatus
              scheduled_time := scheduledTime
              dispatch_batch := 1
              last_offer_sent_at := now
              created_at := now
              updated_at := now
              note := note
              cancellation_reason := none }
          ⟨.ok newRide, rides ++ [newRide], scheduledTime.isNone⟩

/-- The three targets a driver may request through `updateRideStatus`. -/
inductive DriverTarget where
  | ARRIVED
  | IN_PROGRESS
  | COMPLETED
deriving DecidableEq, Repr

/-- The ride status written for each driver target. -/
def DriverTarget.toStatus : DriverTarget → RideStatus
  | .ARRIVED => .ARRIVED
  | .IN_PROGRESS => .IN_PROGRESS
  | .COMPLETED => .COMPLETED

/-- The driver coordinates the ARRIVED check ends up using: the
client-supplied pair when both components are truthy, otherwise the
live-location row when it exists, otherwise the (partial) client values. -/
def effectiveDriverCoords (clientLat clientLng : Option ℚ)
    (dbLoc : Option (ℚ × ℚ)) : Option ℚ × Option ℚ :=
  if jsTruthy clientLat && jsTruthy clientLng then (clientLat, clientLng)
  else
    match dbLoc with
    | some (la, ln) => (some la, some ln)
    | none => (clientLat, clientLng)

/-- The ARRIVED proximity gate: the request is rejected exactly when the
ride row was found AND the effective driver coordinates are both truthy
AND the computed distance to pickup exceeds 500 meters.  When the ride row
or either coordinate is missing (or a coordinate is 0, which JavaScript
treats as falsy) the check is skipped.  `dist` abstracts the
floating-point `getDistanceFromLatLonInKm(driverLat, driverLng,
pickupLat, pickupLng)` helper. -/
def arrivedTooFar (dist : ℚ → ℚ → ℚ → ℚ → ℚ)
    (rides : List Ride) (locs : List (Nat × ℚ × ℚ))
    (rideId driverId : Nat) (clientLat clientLng : Option ℚ) : Bool :=
  let pickupRow := rides.find? (fun r => r.id == rideId)
  let dbLoc := (locs.find? (fun l => l.1 == driverId)).map (fun l => l.2)
  let e := effectiveDriverCoords clientLat clientLng dbLoc
  match pickupRow, e.1, e.2 with
  | some r, some la, some ln =>
    la != 0 && ln != 0 && decide (dist la ln r.pickup_lat r.pickup_lng > 500)
  | _, _, _ => false

/-- Observable outcome of `updateRideStatus`. -/
structure StatusOutcome where
  result : Except RideError Ride
  rides : List Ride
  txns : List Txn
deriving Repr

/-- The settlement engine's final write of `payment_status` onto the ride
row (`.eq('id', rideId)` only); the cash path also touches `updated_at`. -/
def applyPaymentStatus (rides : List Ride) (rideId : Nat)
    (ps : PaymentStatus) (touch : Option Int) : List Ride :=
  rides.map fun r =>
    if r.id == rideId then
      { r with payment_status := ps, updated_at := touch.getD r.updated_at }
    else r

/-- `updateRideStatus(rideId, driverId, status, lat?, lng?)`: for ARRIVED,
run the proximity gate; then conditionally update the ride requiring
`id = rideId AND driver_id = driverId` (the current status is NOT part of
the condition), failing when no single row matched; on COMPLETED, run the
settlement path selected by the ride's payment method (`debitOk`,
`creditOk`, `txnOk` are the oracles for the balance RPCs and the ledger
insert) and write the resulting payment status back. -/
def updateRideStatus (dist : ℚ → ℚ → ℚ → ℚ → ℚ)
    (rides : List Ride) (locs : List (Nat × ℚ × ℚ))
    (rideId driverId : Nat) (target : DriverTarget)
    (clientLat clientLng : Option ℚ) (now : Int)
    (debitOk creditOk txnOk : Bool) : StatusOutcome :=
  if target == DriverTarget.ARRIVED &&
      arrivedTooFar dist rides locs rideId driverId clientLat clientLng then
    ⟨.error .TooFarFromPickup, rides, []⟩
  else
    match condUpdate rides (fun r => r.id == rideId && r.driver_id == some driverId)
        (fun r => { r with status := target.toStatus, updated_at := now }) with
    | (none, rides') => ⟨.error .Forbidden, rides', []⟩
    | (some row, rides') =>
      if target == DriverTarget.COMPLETED then
        match row.payment_method with
        | .WALLET =>
          let o := processWalletPayment row.id row.fare_estimate row.passenger_id
            driverId debitOk creditOk txnOk
          ⟨.ok row, applyPaymentStatus rides' row.id o.finalPaymentStatus none, o.ledger⟩
        | .CASH =>
          let o := processCashCommission row.id row.fare_estimate driverId debitOk txnOk
          ⟨.ok row, applyPaymentStatus rides' row.id o.finalPaymentStatus (some now), o.ledger⟩
      else ⟨.ok row, rides', []⟩

/-- Observable outcome of `cancelRideByPassenger`. -/
structure CancelOutcome where
  success : Bool
  rides : List Ride
  /-- driver notified of the cancellation, when the updated row carried one. -/
  notifiedDriver : Option Nat
deriving Repr

/-- `cancelRideByPassenger(rideId, passengerId, reason)`: conditionally
update the ride requiring `id = rideId AND passenger_id = passengerId`
(again no status condition), setting CANCELLED with the reason; the
`.single()` error is destructured away and never inspected, so the method
returns `{ success: true }` whether or not any row matched. -/
def cancelRideByPassenger (rides : List Ride) (rideId passengerId : Nat)
    (reason : String) (now : Int) : CancelOutcome :=
  let u := condUpdate rides
    (fun r => r.id == rideId && r.passenger_id == passengerId)
    (fun r =>
      { r with status := RideStatus.CANCELLED, cancellation_reason := some reason, updated_at := now })
  { success := true
    rides := u.2
    notifiedDriver := match u.1 with | some r => r.driver_id | none => none }

/-- The statuses `acceptRide` admits besides an idempotent re-accept. -/
def acceptValidStatuses : List RideStatus :=
  [RideStatus.PENDING, RideStatus.SCHEDULED, RideStatus.NO_DRIVERS_AVAILABLE]

/-- `acceptRide` split at its suspension point: the validation runs against
the snapshot `snap` the initial fetch returned, while the conditional
update runs against the current table `rides`.  Fails NotFound when the
snapshot is empty; fails Unavailable when the snapshot status is neither
open (PENDING / SCHEDULED / NO_DRIVERS_AVAILABLE) nor ACCEPTED by this
same driver; then updates conditionally on `driver_id = driverId` when the
snapshot already carries this driver (scheduled confirmation), else on
`driver_id IS NULL` (open ride), failing Unavailable when no single row
matched (the race was lost). -/
def acceptRideWith (rides : List Ride) (snap : Option Ride)
    (rideId driverId : Nat) (now : Int) : Except RideError Ride × List Ride :=
  match snap with
  | none => (.error .NotFound, rides)
  | some ride =>
    let isAlreadyMyRide := ride.status == RideStatus.ACCEPTED &&
      ride.driver_id == some driverId
    if !(acceptValidStatuses.contains ride.status) && !isAlreadyMyRide then
      (.error .Unavailable, rides)
    else
      let newStatus := if ride.status == RideStatus.SCHEDULED then
        RideStatus.SCHEDULED else RideStatus.ACCEPTED
      let upd :=
        if ride.driver_id == some driverId then
          condUpdate rides (fun r => r.id == rideId && r.driver_id == some driverId)
            (fun r => { r with status := newStatus, updated_at := now })
        else
          condUpdate rides (fun r => r.id == rideId && r.driver_id == none)
            (fun r =>
              { r with status := newStatus, driver_id := some driverId, updated_at := now, cancellation_reason := none })
      match upd with
      | (some row, rides') => (.ok row, rides')
      | (none, rides') => (.error .Unavailable, rides')

/-- `acceptRide(rideId, driverId)` run without interference: the snapshot
is the current row for `rideId`. -/
def acceptRide (rides : List Ride) (rideId driverId : Nat) (now : Int) :
    Except RideError Ride × List Ride :=
  acceptRideWith rides (rides.find? (fun r => r.id == rideId)) rideId driverId now

/-! ## Periodic processes -/

/-- The hoarding window: 20 minutes, in milliseconds. -/
def hoardingWindowMs : Int := 20 * 60 * 1000

/-- Selection predicate of the driver-hoarding check: status ACCEPTED and
`updated_at` older than the 20-minute window. -/
def stuckAcceptedCond (now : Int) (r : Ride) : Bool :=
  r.status == RideStatus.ACCEPTED && decide (r.updated_at < now - hoardingWindowMs)

/-- The reclaim write of the driver-hoarding check. -/
def reclaimRide (now : Int) (r : Ride) : Ride :=
  { r with status := RideStatus.PENDING, driver_id := none,
           dispatch_batch := 1, updated_at := now, last_offer_sent_at := now,
           note := some "Previous driver unresponsive. Auto-reassigned." }

/-- `handleStuckAcceptedRides`: select every ACCEPTED ride older than the
hoarding window (no limit) and, one by one, apply the reclaim update keyed
by `id`. -/
def handleStuckAcceptedRides (now : Int) (rides : List Ride) : List Ride :=
  let stuck := rides.filter (stuckAcceptedCond now)
  stuck.foldl
    (fun acc s => acc.map fun x => if x.id == s.id then reclaimRide now x else x)
    rides

/-- The activation write of the scheduled-ride activator (note:
`driver_id` is preserved). -/
def activateRideRow (now : Int) (r : Ride) : Ride :=
  { r with status := RideStatus.PENDING, updated_at := now,
           last_offer_sent_at := now, dispatch_batch := 1 }

/-- Selection predicate of the activator: status SCHEDULED and
`scheduled_time <= now + 20 minutes` (rows with no scheduled time do not
match the SQL comparison). -/
def activationCond (now : Int) (r : Ride) : Bool :=
  r.status == RideStatus.SCHEDULED &&
    (match r.scheduled_time with
     | some t => decide (t ≤ now + 20 * 60000)
     | none => false)

/-- Observable outcome of `activateScheduledRides`. -/
structure ActivationOutcome where
  rides : List Ride
  /-- ride ids passed to `find_and_offer_ride`, in invocation order. -/
  matcherCalls : List Nat
  /-- drivers of pre-assigned rides notified to prepare. -/
  driverNotifies : List Nat
deriving Repr

/-- Per-ride body of the activator: apply the activation update keyed by
`id`; then, when a driver is attached, only notify that driver (the
matcher is NOT invoked), else invoke `find_and_offer_ride` for the ride. -/
def activateOne (now : Int) (acc : ActivationOutcome) (s : Ride) :
    ActivationOutcome :=
  let rides' := acc.rides.map fun x => if x.id == s.id then activateRideRow now x else x
  match s.driver_id with
  | some d =>
    { rides := rides'
      matcherCalls := acc.matcherCalls
      driverNotifies := acc.driverNotifies ++ [d] }
  | none =>
    { rides := rides'
      matcherCalls := acc.matcherCalls ++ [s.id]
      driverNotifies := acc.driverNotifies }

/-- `activateScheduledRides`: select at most 50 rides with status SCHEDULED
whose scheduled time is within the 20-minute lookahead (`.limit(50)`), and
process each with `activateOne`. -/
def activateScheduledRides (now : Int) (rides : List Ride) : ActivationOutcome :=
  let selected := (rides.filter (activationCond now)).take 50
  selected.foldl (activateOne now) ⟨rides, [], []⟩

/-! ## Named constants and concrete fixtures used by the theorems -/

/-- The ledger line the wallet path writes. -/
def walletCommissionLine (rideId driverId : Nat) (fare : ℚ) : Txn :=
  { driver_id := driverId
    amount := -(commissionOf fare)
    description := "Ride Commission (12%) - Wallet Ride"
    ride_id := rideId }

/-- The ledger line the cash path writes. -/
def cashCommissionLine (rideId driverId : Nat) (fare : ℚ) : Txn :=
  { driver_id := driverId
    amount := -(commissionOf fare)
    description := "Ride Commission (12%) - Cash Ride"
    ride_id := rideId }

/-- A ride row template for concrete instances. -/
def baseRideW : Ride :=
  { id := 0
    passenger_id := 0
    driver_id := none
    pickup_lat := 3
    pickup_lng := 3
    dropoff_lat := 4
    dropoff_lng := 4
    fare_estimate := 500
    payment_method := PaymentMethod.CASH
    payment_status := PaymentStatus.UNPAID
    status := RideStatus.PENDING
    scheduled_time := none
    dispatch_batch := 1
    last_offer_sent_at := 0
    created_at := 0
    updated_at := 0
    note := none
    cancellation_reason := none }

/-- A ride of passenger 7 whose wallet payment failed. -/
def debtRideW : Ride :=
  { baseRideW with
      id := 3
      passenger_id := 7
      driver_id := some 2
      payment_method := PaymentMethod.WALLET
      payment_status := PaymentStatus.PAYMENT_FAILED
      status := RideStatus.COMPLETED }

/-- A ride owned by passenger 4 (not 9), used to exercise the no-op
cancellation path. -/
def otherOwnerRideW : Ride :=
  { baseRideW with
      id := 5
      passenger_id := 4
      driver_id := some 2
      status := RideStatus.ACCEPTED }

/-- Modelled from the spec (§4.3): the legal transition relation of the
ride state machine — `PENDING → {ACCEPTED, NO_DRIVERS_AVAILABLE,
CANCELLED}`, `SCHEDULED → {ACCEPTED, PENDING, CANCELLED}`, `ACCEPTED →
{ARRIVED, PENDING, CANCELLED}`, `ARRIVED → {IN_PROGRESS, CANCELLED}`,
`IN_PROGRESS → {COMPLETED}`; COMPLETED, CANCELLED and
NO_DRIVERS_AVAILABLE are terminal.  Used only to compare the code's
guards against the spec's relation. -/
def specLegalTransition : RideStatus → RideStatus → Bool
  | .PENDING, .ACCEPTED => true
  | .PENDING, .NO_DRIVERS_AVAILABLE => true
  | .PENDING, .CANCELLED => true
  | .SCHEDULED, .ACCEPTED => true
  | .SCHEDULED, .PENDING => true
  | .SCHEDULED, .CANCELLED => true
  | .ACCEPTED, .ARRIVED => true
  | .ACCEPTED, .PENDING => true
  | .ACCEPTED, .CANCELLED => true
  | .ARRIVED, .IN_PROGRESS => true
  | .ARRIVED, .CANCELLED => true
  | .IN_PROGRESS, .COMPLETED => true
  | _, _ => false

/-- The row an open-ride accept writes. -/
def acceptedRow (r : Ride) (driverId : Nat) (now : Int) : Ride :=
  { r with
      status := RideStatus.ACCEPTED
      driver_id := some driverId
      updated_at := now
      cancellation_reason := none }

/-- A COMPLETED (terminal) ride of passenger 1 with driver 2. -/
def completedRideW : Ride :=
  { baseRideW with
      id := 0
      passenger_id := 1
      driver_id := some 2
      status := RideStatus.COMPLETED
      payment_status := PaymentStatus.PAID }

/-- An open PENDING ride with no driver attached. -/
def openPendingW : Ride :=
  { baseRideW with id := 7, passenger_id := 1 }

/-- An ACCEPTED ride last touched at time 0 (stale for any clock beyond
the hoarding window). -/
def staleAcceptedW : Ride :=
  { baseRideW with
      id := 8
      passenger_id := 1
      driver_id := some 2
      status := RideStatus.ACCEPTED }

/-- A SCHEDULED ride, unassigned, due at time 0. -/
def schedRideW : Ride :=
  { baseRideW with
      id := 1
      passenger_id := 1
      status := RideStatus.SCHEDULED
      scheduled_time := some 0 }

/-- A SCHEDULED ride pre-assigned to driver 5, due at time 0. -/
def schedAssignedW : Ride :=
  { baseRideW with
      id := 2
      passenger_id := 1
      driver_id := some 5
      status := RideStatus.SCHEDULED
      scheduled_time := some 0 }

/-- Fifty-one SCHEDULED rides, all due at time 0 — one more than the
activator's query limit. -/
def db51 : List Ride :=
  (List.range 51).map (fun i =>
    { baseRideW with
        id := i
        passenger_id := 1
        status := RideStatus.SCHEDULED
        scheduled_time := some 0 })

/-! ## Helper lemmas on the conditional-update primitive -/

theorem filter_comm_and (p q : Ride → Bool) (l : List Ride) :
    l.filter (fun x => p x && q x) = (l.filter p).filter q := by
  induction l with
  | nil => rfl
  | cons a t ih =>
    by_cases hp : p a <;> by_cases hq : q a <;>
      simp [List.filter_cons, hp, hq, ih]

theorem filter_and_single {p q : Ride → Bool} {l : List Ride} {r : Ride}
    (h : l.filter p = [r]) :
    l.filter (fun x => p x && q x) = if q r then [r] else [] := by
  rw [filter_comm_and, h]
  by_cases hq : q r <;> simp [List.filter_cons, hq]

theorem find?_eq_of_filter_single {p : Ride → Bool} {l : List Ride} {r : Ride}
    (h : l.filter p = [r]) : l.find? p = some r := by
  induction l with
  | nil => simp at h
  | cons a t ih =>
    by_cases hp : p a
    · rw [List.filter_cons_of_pos hp] at h
      obtain ⟨rfl, -⟩ := List.cons_eq_cons.mp h
      exact List.find?_cons_of_pos _ hp
    · rw [List.filter_cons_of_neg hp] at h
      rw [List.find?_cons_of_neg _ hp]
      exact ih h

theorem mem_of_filter_single {p : Ride → Bool} {l : List Ride} {r : Ride}
    (h : l.filter p = [r]) : r ∈ l ∧ p r = true := by
  have : r ∈ l.filter p := by rw [h]; exact List.mem_singleton_self r
  exact ⟨List.mem_of_mem_filter this, List.of_mem_filter this⟩

theorem map_id_of_not_cond {cond : Ride → Bool} {f : Ride → Ride} {l : List Ride}
    (h : ∀ x ∈ l, cond x = false) :
    (l.map fun x => if cond x then f x else x) = l := by
  induction l with
  | nil => rfl
  | cons a t ih =>
    have ha := h a (List.mem_cons_self a t)
    have ht := ih (fun x hx => h x (List.mem_cons_of_mem a hx))
    simp [ha, ht]

theorem filter_of_map {g : Ride → Ride} {p : Ride → Bool} {l : List Ride} :
    (l.map g).filter p = (l.filter (fun x => p (g x))).map g := by
  induction l with
  | nil => rfl
  | cons a t ih => by_cases h : p (g a) <;> simp [h, ih]

theorem find?_map_key {g : Ride → Ride} {l : List Ride} {n : Nat}
    (hg : ∀ x, (g x).id = x.id) :
    (l.map g).find? (fun y => y.id == n) = (l.find? (fun x => x.id == n)).map g := by
  induction l with
  | nil => rfl
  | cons a t ih =>
    by_cases ha : (a.id == n)
    · simp [List.find?_cons, hg, ha]
    · simp [List.find?_cons, hg, ha, ih]

/-! ## Theorems for the settlement claims -/

/-- **C2 (counterexample).** A wallet settlement in which the passenger
debit succeeded but the driver credit failed leaves the ride marked PAID
with no commission ledger line even attempted — against the claim that a
successful debit comes with a commission ledger line. -/
theorem wallet_paid_without_ledger_counterexample :
    (processWalletPayment 1 100 2 3 true false true).finalPaymentStatus = PaymentStatus.PAID ∧
    (processWalletPayment 1 100 2 3 true false true).ledgerAttempt = none ∧
    (processWalletPayment 1 100 2 3 true false true).ledger = [] :=
  ⟨rfl, rfl, rfl⟩

/-- **C2 (amended).** For every wallet settlement: the passenger is
debited the full fare and the driver is credited fare − 12% commission
regardless of the debit outcome; the final payment status is PAID exactly
when the passenger debit succeeded and PAYMENT_FAILED otherwise (so a
failed debit never leaves the ride marked paid); and the commission
ledger insert is attempted exactly when the DRIVER CREDIT succeeded —
not when the passenger debit succeeded. -/
theorem wallet_settlement_characterization (rideId passengerId driverId : Nat)
    (fare : ℚ) (pOk dOk txnOk : Bool) :
    (processWalletPayment rideId fare passengerId driverId pOk dOk txnOk).debitAttempt = fare ∧
    (processWalletPayment rideId fare passengerId driverId pOk dOk txnOk).creditAttempt
      = fare - commissionOf fare ∧
    (processWalletPayment rideId fare passengerId driverId pOk dOk txnOk).finalPaymentStatus
      = (if pOk then PaymentStatus.PAID else PaymentStatus.PAYMENT_FAILED) ∧
    (processWalletPayment rideId fare passengerId driverId pOk dOk txnOk).ledgerAttempt
      = (if dOk then some (walletCommissionLine rideId driverId fare) else none) ∧
    ((processWalletPayment rideId fare passengerId driverId pOk dOk txnOk).finalPaymentStatus
      = PaymentStatus.PAID ↔ pOk = true) := by
  cases pOk <;> cases dOk <;> cases txnOk <;>
    simp [processWalletPayment, walletCommissionLine, commissionOf]

/-- **C4.** Cash settlement: the driver is debited the 12% commission; if
the debit fails the ride is marked COMMISSION_OWED and no ledger insert is
attempted; if it succeeds the commission ledger line insert is attempted
and the ride is marked PAID; and a ledger-insert failure after a
successful debit does not make the COMPLETED transition fail (the last
conjunct runs `updateRideStatus` to COMPLETED on a cash ride with the
ledger-insert oracle set to failure and still obtains a success result). -/
theorem cash_commission_settlement (rideId driverId : Nat) (fare : ℚ)
    (deductOk txnOk : Bool) (dist : ℚ → ℚ → ℚ → ℚ → ℚ)
    (locs : List (Nat × ℚ × ℚ)) (r : Ride) (now : Int)
    (hdrv : r.driver_id = some driverId) (hpm : r.payment_method = PaymentMethod.CASH) :
    (processCashCommission rideId fare driverId deductOk txnOk).debitAttempt
      = commissionOf fare ∧
    (processCashCommission rideId fare driverId deductOk txnOk).finalPaymentStatus
      = (if deductOk then PaymentStatus.PAID else PaymentStatus.COMMISSION_OWED) ∧
    (processCashCommission rideId fare driverId deductOk txnOk).ledgerAttempt
      = (if deductOk then some (cashCommissionLine rideId driverId fare) else none) ∧
    (processCashCommission rideId fare driverId deductOk txnOk).ledger
      = (if deductOk && txnOk then [cashCommissionLine rideId driverId fare] else []) ∧
    (updateRideStatus dist [r] locs r.id driverId DriverTarget.COMPLETED none none now
        true true false).result
      = .ok { r with status := RideStatus.COMPLETED, updated_at := now } := by
  refine ⟨?_, ?_, ?_, ?_, ?_⟩
  · cases deductOk <;> rfl
  · cases deductOk <;> rfl
  · cases deductOk <;> simp [processCashCommission, cashCommissionLine, commissionOf]
  · cases deductOk <;> cases txnOk <;>
      simp [processCashCommission, cashCommissionLine, commissionOf]
  · simp [updateRideStatus, condUpdate, List.filter_cons, hdrv, hpm, DriverTarget.toStatus]

/-- Witness for C4: completing a concrete CASH ride whose commission debit
succeeded but whose ledger insert failed still succeeds, with the ledger
insert attempted and the ride marked PAID. -/
theorem cash_commission_settlement_witness :
    otherOwnerRideW.driver_id = some 2 ∧
    otherOwnerRideW.payment_method = PaymentMethod.CASH ∧
    ((processCashCommission 5 500 2 true false).debitAttempt = commissionOf 500 ∧
     (processCashCommission 5 500 2 true false).finalPaymentStatus
       = (if true then PaymentStatus.PAID else PaymentStatus.COMMISSION_OWED) ∧
     (processCashCommission 5 500 2 true false).ledgerAttempt
       = (if true then some (cashCommissionLine 5 2 500) else none) ∧
     (processCashCommission 5 500 2 true false).ledger
       = (if true && false then [cashCommissionLine 5 2 500] else []) ∧
     (updateRideStatus (fun _ _ _ _ => 0) [otherOwnerRideW] [] otherOwnerRideW.id 2
        DriverTarget.COMPLETED none none 3 true true false).result
       = .ok { otherOwnerRideW with status := RideStatus.COMPLETED, updated_at := 3 }) :=
  ⟨rfl, rfl,
    cash_commission_settlement 5 2 500 true false (fun _ _ _ _ => 0) []
      otherOwnerRideW 3 rfl rfl⟩

/-! ## Theorems for the request / cancel claims -/

/-- **C3.** A passenger with any PAYMENT_FAILED ride is blocked: with
well-formed coordinates, `requestRide` fails with the OutstandingDebt
rejection and the rides table is unchanged (no new ride inserted) and the
matcher is never invoked — whatever the fare RPC, balance, payment method
or schedule arguments were (the debt check runs before the fare result is
even inspected). -/
theorem requestRide_blocks_debtors (rides : List Ride) (passengerId : Nat)
    (pickupLat pickupLng dropoffLat dropoffLng : ℚ) (paymentMethod : PaymentMethod)
    (note : Option String) (offeredFare : Option ℚ) (scheduledTime : Option Int)
    (fareResult : Option ℚ) (balance : Option ℚ) (newId : Nat) (now : Int)
    (hva : validCoords pickupLat pickupLng = true)
    (hvb : validCoords dropoffLat dropoffLng = true)
    (hdebt : rides.any (fun r => r.passenger_id == passengerId &&
        r.payment_status == PaymentStatus.PAYMENT_FAILED) = true) :
    requestRide rides passengerId pickupLat pickupLng dropoffLat dropoffLng paymentMethod
        note offeredFare scheduledTime fareResult balance newId now
      = ⟨.error .OutstandingDebt, rides, false⟩ := by
  unfold requestRide
  rw [hva, hvb, hdebt]
  simp

/-- Witness for C3: a passenger owing a failed wallet payment is rejected
on a concrete table. -/
theorem requestRide_blocks_debtors_witness :
    validCoords 3 3 = true ∧ validCoords 4 4 = true ∧
    ([debtRideW].any (fun r => r.passenger_id == 7 &&
        r.payment_status == PaymentStatus.PAYMENT_FAILED) = true) ∧
    requestRide [debtRideW] 7 3 3 4 4 PaymentMethod.CASH none none none
        (some 500) none 1 0
      = ⟨.error .OutstandingDebt, [debtRideW], false⟩ :=
  ⟨by decide, by decide, by decide,
    requestRide_blocks_debtors [debtRideW] 7 3 3 4 4 PaymentMethod.CASH none none none
      (some 500) none 1 0 (by decide) (by decide) (by decide)⟩

/-- `resolvePrice` meets its specification whenever the floor price is
positive: `max(floor, offer)` for a positive offer, the floor otherwise,
and never below the floor. -/
theorem resolvePrice_spec (floorPrice : ℚ) (offeredFare : Option ℚ)
    (h : 0 < floorPrice) :
    resolvePrice floorPrice offeredFare
      = (match offeredFare with
         | some v => if 0 < v then max floorPrice v else floorPrice
         | none => floorPrice) ∧
    floorPrice ≤ resolvePrice floorPrice offeredFare := by
  cases offeredFare with
  | none => exact ⟨rfl, le_refl _⟩
  | some v =>
    by_cases h0 : v = 0
    · simp [resolvePrice, h0]
    · by_cases hlt : floorPrice < v
      · have hv : 0 < v := lt_trans h hlt
        simp [resolvePrice, h0, hlt, hv, max_eq_right (le_of_lt hlt), le_of_lt hlt]
      · by_cases hv : 0 < v
        · simp [resolvePrice, h0, hlt, hv, max_eq_left (not_lt.mp hlt)]
        · simp [resolvePrice, h0, hlt, hv]

/-- **C5.** Whenever `requestRide` is called with a positive floor price
obtained from the fare RPC and it inserts a ride, the inserted ride's
`fare_estimate` is `max(floorPrice, offeredFare)` when the offered fare is
a positive number and `floorPrice` otherwise (absent, zero — falsy in
JavaScript — or negative offers are ignored); in particular the inserted
fare is never below the floor price. -/
theorem requestRide_fare_floor (rides : List Ride) (passengerId : Nat)
    (pickupLat pickupLng dropoffLat dropoffLng : ℚ) (paymentMethod : PaymentMethod)
    (note : Option String) (offeredFare : Option ℚ) (scheduledTime : Option Int)
    (floorPrice : ℚ) (balance : Option ℚ) (newId : Nat) (now : Int)
    (hfloor : 0 < floorPrice) :
    match (requestRide rides passengerId pickupLat pickupLng dropoffLat dropoffLng
        paymentMethod note offeredFare scheduledTime (some floorPrice) balance
        newId now).result with
    | .ok r =>
        r.fare_estimate
          = (match offeredFare with
             | some v => if 0 < v then max floorPrice v else floorPrice
             | none => floorPrice) ∧
        floorPrice ≤ r.fare_estimate
    | .error _ => True := by
  obtain ⟨hspec, hle⟩ := resolvePrice_spec floorPrice offeredFare hfloor
  unfold requestRide
  by_cases h1 : (!(validCoords pickupLat pickupLng &&
      validCoords dropoffLat dropoffLng)) = true
  · simp [h1]
  · by_cases h2 : (rides.any fun r => r.passenger_id == passengerId &&
        r.payment_status == PaymentStatus.PAYMENT_FAILED) = true
    · simp [h1, h2]
    · by_cases h3 : (floorPrice == 0) = true
      · simp [h1, h2, h3]
      · by_cases h4 : (paymentMethod == PaymentMethod.WALLET &&
            match balance with
            | none => true
            | some b => decide (b < resolvePrice floorPrice offeredFare)) = true
        · simp [h1, h2, h3, h4]
        · simp only [h1, h2, h3, h4, Bool.false_eq_true, if_false]
          exact ⟨hspec, hle⟩

/-- Witness for C5: floor 500 with an offered 700 yields an inserted fare
of 700 = max(500, 700), not below the floor. -/
theorem requestRide_fare_floor_witness :
    0 < (500 : ℚ) ∧
    (match (requestRide [] 1 3 3 4 4 PaymentMethod.CASH none (some 700) none
        (some 500) none 1 0).result with
     | .ok r =>
        r.fare_estimate
          = (match (some (700 : ℚ)) with
             | some v => if 0 < v then max 500 v else (500 : ℚ)
             | none => (500 : ℚ)) ∧
        (500 : ℚ) ≤ r.fare_estimate
     | .error _ => True) :=
  ⟨by norm_num,
    requestRide_fare_floor [] 1 3 3 4 4 PaymentMethod.CASH none (some 700) none
      500 none 1 0 (by norm_num)⟩

/-- **C10.** `cancelRideByPassenger` reports success even when nothing
matched: whenever no ride row carries both the given ride id and the given
passenger id (in particular for a ride id absent from the table, or a
passenger who does not own the ride), the call still returns
`{ success: true }`, leaves every ride untouched, and notifies nobody —
indistinguishable from a real cancellation. -/
theorem cancel_no_match_success (rides : List Ride) (rideId passengerId : Nat)
    (reason : String) (now : Int)
    (h : ∀ r ∈ rides, (r.id == rideId && r.passenger_id == passengerId) = false) :
    (cancelRideByPassenger rides rideId passengerId reason now).success = true ∧
    (cancelRideByPassenger rides rideId passengerId reason now).rides = rides ∧
    (cancelRideByPassenger rides rideId passengerId reason now).notifiedDriver = none := by
  have hnil : rides.filter
      (fun r => r.id == rideId && r.passenger_id == passengerId) = [] := by
    rw [List.filter_eq_nil_iff]
    intro a ha
    simp [h a ha]
  refine ⟨rfl, ?_, ?_⟩
  · exact map_id_of_not_cond h
  · simp [cancelRideByPassenger, condUpdate, hnil]

/-- Witness for C10: cancelling a ride that belongs to a different
passenger (and a ride id that does not exist at all — the table has only
ride 5) still reports success and changes nothing. -/
theorem cancel_no_match_success_witness :
    (∀ r ∈ [otherOwnerRideW], (r.id == 5 && r.passenger_id == 9) = false) ∧
    (cancelRideByPassenger [otherOwnerRideW] 5 9 "USER_CANCELLED" 3).success = true ∧
    (cancelRideByPassenger [otherOwnerRideW] 5 9 "USER_CANCELLED" 3).rides
      = [otherOwnerRideW] ∧
    (cancelRideByPassenger [otherOwnerRideW] 5 9 "USER_CANCELLED" 3).notifiedDriver
      = none :=
  ⟨by decide,
    cancel_no_match_success [otherOwnerRideW] 5 9 "USER_CANCELLED" 3 (by decide)⟩

/-! ## Theorems for the ARRIVED proximity claim -/

/-- The proximity gate fires exactly when the ride row was found, the
effective driver coordinates are both present and truthy, and the
computed distance exceeds 500 meters. -/
theorem arrivedTooFar_iff (dist : ℚ → ℚ → ℚ → ℚ → ℚ)
    (rides : List Ride) (locs : List (Nat × ℚ × ℚ)) (rideId driverId : Nat)
    (clientLat clientLng : Option ℚ) :
    arrivedTooFar dist rides locs rideId driverId clientLat clientLng = true
    ↔ (match rides.find? (fun r => r.id == rideId),
          effectiveDriverCoords clientLat clientLng
            ((locs.find? (fun l => l.1 == driverId)).map (fun l => l.2)) with
        | some r, (some la, some ln) =>
            la ≠ 0 ∧ ln ≠ 0 ∧ dist la ln r.pickup_lat r.pickup_lng > 500
        | _, _ => False) := by
  unfold arrivedTooFar
  rcases hf : rides.find? (fun r => r.id == rideId) with - | r
  · simp [hf]
  · rcases he : effectiveDriverCoords clientLat clientLng
        ((locs.find? (fun l => l.1 == driverId)).map (fun l => l.2)) with ⟨ela, eln⟩
    rcases ela with - | la <;> rcases eln with - | ln <;>
      simp [hf, he, and_assoc]

/-- **C7.** `updateRideStatus(..., ARRIVED, ...)` fails with
TooFarFromPickup exactly when the ride's pickup row is found and a driver
location is available — the client-supplied pair when both components are
truthy, else the live-location row — and the computed great-circle
distance to pickup exceeds 500 meters; when the ride row or either
coordinate is unavailable (absent, or 0, which JavaScript treats as
falsy) the check is skipped and the transition proceeds to the
conditional update.  The distance function is the abstract parameter
`dist`, so in particular a 1000-meter distance fails and a 100-meter
distance does not. -/
theorem arrived_proximity_iff (dist : ℚ → ℚ → ℚ → ℚ → ℚ)
    (rides : List Ride) (locs : List (Nat × ℚ × ℚ)) (rideId driverId : Nat)
    (clientLat clientLng : Option ℚ) (now : Int) (debitOk creditOk txnOk : Bool) :
    ((updateRideStatus dist rides locs rideId driverId DriverTarget.ARRIVED
        clientLat clientLng now debitOk creditOk txnOk).result
      = .error .TooFarFromPickup)
    ↔ (match rides.find? (fun r => r.id == rideId),
          effectiveDriverCoords clientLat clientLng
            ((locs.find? (fun l => l.1 == driverId)).map (fun l => l.2)) with
        | some r, (some la, some ln) =>
            la ≠ 0 ∧ ln ≠ 0 ∧ dist la ln r.pickup_lat r.pickup_lng > 500
        | _, _ => False) := by
  rw [← arrivedTooFar_iff dist rides locs rideId driverId clientLat clientLng]
  by_cases htf : arrivedTooFar dist rides locs rideId driverId clientLat clientLng = true
  · simp [updateRideStatus, htf]
  · simp only [updateRideStatus, htf]
    rcases hcu : condUpdate rides
        (fun r => r.id == rideId && r.driver_id == some driverId)
        (fun r => { r with status := DriverTarget.ARRIVED.toStatus, updated_at := now }) with
      ⟨o, rides'⟩
    rcases o with - | row <;> simp [hcu, htf]

/-! ## Theorems for the transition-relation claim -/

/-- **C1 (counterexample).** A ride in the terminal status COMPLETED is
moved by later operations: its passenger's `cancelRideByPassenger` call
succeeds and rewrites it to CANCELLED, and its driver's
`updateRideStatus(..., ARRIVED, ...)` call succeeds and rewrites it to
ARRIVED — although neither COMPLETED → CANCELLED nor COMPLETED → ARRIVED
is a legal transition of the spec's state machine. -/
theorem terminal_ride_moved_counterexample :
    specLegalTransition RideStatus.COMPLETED RideStatus.CANCELLED = false ∧
    (cancelRideByPassenger [completedRideW] 0 1 "CHANGE_OF_PLANS" 9).success = true ∧
    (cancelRideByPassenger [completedRideW] 0 1 "CHANGE_OF_PLANS" 9).rides
      = [{ completedRideW with
            status := RideStatus.CANCELLED
            cancellation_reason := some "CHANGE_OF_PLANS"
            updated_at := 9 }] ∧
    specLegalTransition RideStatus.COMPLETED RideStatus.ARRIVED = false ∧
    (updateRideStatus (fun _ _ _ _ => 0) [completedRideW] [] 0 2
        DriverTarget.ARRIVED none none 9 true true true).result
      = .ok { completedRideW with status := RideStatus.ARRIVED, updated_at := 9 } :=
  ⟨rfl, rfl, rfl, rfl, rfl⟩

/-- **C1 (amended).** The conditional updates of `updateRideStatus` and
`cancelRideByPassenger` guard only on ownership, never on the current
status: whenever the table holds exactly one row with the requested id,
`updateRideStatus` (here at target IN_PROGRESS, which has no proximity
gate and no settlement) succeeds for the assigned driver whatever the
ride's current status — terminal or not — and `cancelRideByPassenger`
succeeds for the owning passenger whatever the current status, writing
CANCELLED.  The legal-transition relation of the spec is not enforced by
these operations. -/
theorem transition_guards_ownership_only (dist : ℚ → ℚ → ℚ → ℚ → ℚ)
    (rides : List Ride) (locs : List (Nat × ℚ × ℚ))
    (rideId driverId passengerId : Nat) (r : Ride) (reason : String)
    (now : Int) (debitOk creditOk txnOk : Bool)
    (hid : rides.filter (fun x => x.id == rideId) = [r]) :
    (r.driver_id = some driverId →
      (updateRideStatus dist rides locs rideId driverId DriverTarget.IN_PROGRESS
          none none now debitOk creditOk txnOk).result
        = .ok { r with status := RideStatus.IN_PROGRESS, updated_at := now }) ∧
    (r.passenger_id = passengerId →
      (cancelRideByPassenger rides rideId passengerId reason now).success = true ∧
      { r with
          status := RideStatus.CANCELLED
          cancellation_reason := some reason
          updated_at := now }
        ∈ (cancelRideByPassenger rides rideId passengerId reason now).rides) := by
  obtain ⟨hrmem, hpr⟩ := mem_of_filter_single hid
  constructor
  · intro hdrv
    have hone := @filter_and_single (fun x => x.id == rideId)
      (fun x => x.driver_id == some driverId) rides r hid
    rw [if_pos (by simp [hdrv])] at hone
    simp [updateRideStatus, condUpdate, hone, DriverTarget.toStatus]
  · intro hpass
    refine ⟨rfl, ?_⟩
    have hcond : (r.id == rideId && r.passenger_id == passengerId) = true := by
      simp only [Bool.and_eq_true]
      exact ⟨hpr, by simp [hpass]⟩
    have hmm := List.mem_map_of_mem
      (fun x => if x.id == rideId && x.passenger_id == passengerId then
        { x with
            status := RideStatus.CANCELLED
            cancellation_reason := some reason
            updated_at := now }
        else x) hrmem
    simp only [hcond, if_true] at hmm
    simpa [cancelRideByPassenger, condUpdate] using hmm

/-- Witness for the amended C1: on a one-row table holding a COMPLETED
ride, the assigned driver moves it to IN_PROGRESS and the owning
passenger cancels it. -/
theorem transition_guards_ownership_only_witness :
    ([completedRideW].filter (fun x => x.id == 0) = [completedRideW]) ∧
    (updateRideStatus (fun _ _ _ _ => 0) [completedRideW] [] 0 2
        DriverTarget.IN_PROGRESS none none 9 true true true).result
      = .ok { completedRideW with status := RideStatus.IN_PROGRESS, updated_at := 9 } ∧
    { completedRideW with
        status := RideStatus.CANCELLED
        cancellation_reason := some "PLANS_CHANGED"
        updated_at := 9 }
      ∈ (cancelRideByPassenger [completedRideW] 0 1 "PLANS_CHANGED" 9).rides :=
  ⟨by decide,
    (transition_guards_ownership_only (fun _ _ _ _ => 0) [completedRideW] [] 0 2 1
      completedRideW "PLANS_CHANGED" 9 true true true (by decide)).1 rfl,
    ((transition_guards_ownership_only (fun _ _ _ _ => 0) [completedRideW] [] 0 2 1
      completedRideW "PLANS_CHANGED" 9 true true true (by decide)).2 rfl).2⟩

/-! ## Theorems for the accept-ride claim -/

/-- **C6.** `acceptRide` on a table holding exactly one row with the
requested id: (i) when the snapshot status is neither open (PENDING /
SCHEDULED / NO_DRIVERS_AVAILABLE) nor ACCEPTED-by-this-driver, the call
fails Unavailable and the table is unchanged; (ii) when the ride is
already assigned to a different driver, the open-ride conditional update
requires `driver_id IS NULL` and therefore fails Unavailable with the
table unchanged; (iii) for two distinct drivers racing on the same open
PENDING ride, the first conditional update wins and assigns the ride,
and the second attempt fails Unavailable whether its snapshot was taken
before the winner's update (it then loses the `driver_id IS NULL`
conditional update) or after it (it then fails validation) — at most one
of the two succeeds. -/
theorem acceptRide_exclusive (rides : List Ride) (rideId d1 d2 : Nat)
    (r : Ride) (now1 now2 : Int)
    (hfilter : rides.filter (fun x => x.id == rideId) = [r]) :
    ((acceptValidStatuses.contains r.status
        || (r.status == RideStatus.ACCEPTED && r.driver_id == some d1)) = false →
      acceptRide rides rideId d1 now1 = (.error .Unavailable, rides)) ∧
    (∀ d', r.driver_id = some d' → d' ≠ d1 →
      acceptValidStatuses.contains r.status = true →
      acceptRide rides rideId d1 now1 = (.error .Unavailable, rides)) ∧
    (r.driver_id = none → r.status = RideStatus.PENDING → d1 ≠ d2 →
      (acceptRideWith rides (some r) rideId d1 now1).1
        = .ok (acceptedRow r d1 now1) ∧
      (acceptRideWith (acceptRideWith rides (some r) rideId d1 now1).2 (some r)
        rideId d2 now2).1 = .error .Unavailable ∧
      (acceptRideWith (acceptRideWith rides (some r) rideId d1 now1).2
        ((acceptRideWith rides (some r) rideId d1 now1).2.find?
          (fun x => x.id == rideId)) rideId d2 now2).1 = .error .Unavailable) := by
  have hfind := find?_eq_of_filter_single hfilter
  refine ⟨?_, ?_, ?_⟩
  · intro hbad
    rw [Bool.or_eq_false_iff] at hbad
    have hcond1 : (!(acceptValidStatuses.contains r.status) &&
        !(r.status == RideStatus.ACCEPTED && r.driver_id == some d1)) = true := by
      rw [hbad.1, hbad.2]
      rfl
    unfold acceptRide
    rw [hfind]
    simp only [acceptRideWith]
    rw [hcond1, if_pos rfl]
  · intro d' hd' hne hvalid
    have hnomatch : ∀ x ∈ rides, (x.id == rideId && x.driver_id == none) = false := by
      intro x hx
      by_cases hxid : (x.id == rideId) = true
      · have hxf : x ∈ rides.filter (fun y => y.id == rideId) :=
          List.mem_filter.mpr ⟨hx, hxid⟩
        rw [hfilter, List.mem_singleton] at hxf
        subst hxf
        simp [hd']
      · simp [hxid]
    have hnil : rides.filter (fun x => x.id == rideId && x.driver_id == none) = [] := by
      rw [List.filter_eq_nil_iff]
      intro a ha
      simp [hnomatch a ha]
    have hmine : (r.driver_id == some d1) = false := by
      simp [hd', hne]
    have hcond1 : (!(acceptValidStatuses.contains r.status) &&
        !(r.status == RideStatus.ACCEPTED && r.driver_id == some d1)) = false := by
      rw [hvalid]
      rfl
    unfold acceptRide
    rw [hfind]
    simp only [acceptRideWith]
    rw [hcond1, if_neg Bool.false_ne_true, hmine, if_neg Bool.false_ne_true]
    simp only [condUpdate, hnil]
    rw [map_id_of_not_cond hnomatch]
  · intro hopen hpending hne
    have hone := @filter_and_single (fun x => x.id == rideId)
      (fun x => x.driver_id == none) rides r hfilter
    rw [if_pos (by simp [hopen])] at hone
    have hcondPend : (!(acceptValidStatuses.contains r.status) &&
        !(r.status == RideStatus.ACCEPTED && r.driver_id == some d1)) = false := by
      rw [hpending]
      rfl
    have hmineB : (r.driver_id == some d1) = false := by rw [hopen]; rfl
    have hns : (r.status == RideStatus.SCHEDULED) = false := by rw [hpending]; rfl
    have hstep1 : acceptRideWith rides (some r) rideId d1 now1
        = (.ok (acceptedRow r d1 now1),
           rides.map fun x => if x.id == rideId && x.driver_id == none then
             acceptedRow x d1 now1 else x) := by
      simp only [acceptRideWith]
      rw [hcondPend, if_neg Bool.false_ne_true, hmineB, if_neg Bool.false_ne_true, hns,
        if_neg Bool.false_ne_true]
      simp only [condUpdate, hone]
      rfl
    have hnomatch2 : ∀ x ∈ rides,
        ((if x.id == rideId && x.driver_id == none then
            acceptedRow x d1 now1 else x).id == rideId &&
         (if x.id == rideId && x.driver_id == none then
            acceptedRow x d1 now1 else x).driver_id == none) = false := by
      intro x hx
      by_cases hc : (x.id == rideId && x.driver_id == none) = true
      · rw [if_pos hc]
        simp [acceptedRow]
      · rw [if_neg hc]
        exact Bool.eq_false_iff.mpr hc
    refine ⟨by rw [hstep1], ?_, ?_⟩
    · -- stale snapshot: the loser still validates but the conditional update
      -- finds no row with a NULL driver
      rw [hstep1]
      have hnil2 : (rides.map fun x => if x.id == rideId && x.driver_id == none then
            acceptedRow x d1 now1 else x).filter
          (fun x => x.id == rideId && x.driver_id == none) = [] := by
        rw [filter_of_map]
        rw [List.filter_eq_nil_iff.mpr (fun a ha => by
          rw [hnomatch2 a ha]
          exact Bool.false_ne_true)]
        exact List.map_nil
      have hmineB2 : (r.driver_id == some d2) = false := by rw [hopen]; rfl
      have hcondPend2 : (!(acceptValidStatuses.contains r.status) &&
          !(r.status == RideStatus.ACCEPTED && r.driver_id == some d2)) = false := by
        rw [hpending]
        rfl
      simp only [acceptRideWith]
      rw [hcondPend2, if_neg Bool.false_ne_true, hmineB2, if_neg Bool.false_ne_true]
      simp only [condUpdate, hnil2]
    · -- fresh snapshot: the loser sees the winner's row and fails validation
      rw [hstep1]
      have hg : ∀ x : Ride, ((if x.id == rideId && x.driver_id == none then
          acceptedRow x d1 now1 else x).id) = x.id := by
        intro x
        by_cases hc : (x.id == rideId && x.driver_id == none) = true
        · rw [if_pos hc]
          rfl
        · rw [if_neg hc]
      rw [find?_map_key hg, hfind]
      have hcr : (r.id == rideId && r.driver_id == none) = true := by
        obtain ⟨-, hpr⟩ := mem_of_filter_single hfilter
        simp only [Bool.and_eq_true]
        exact ⟨hpr, by simp [hopen]⟩
      rw [Option.map_some', hcr, if_pos rfl]
      have hcond3 : (!(acceptValidStatuses.contains (acceptedRow r d1 now1).status) &&
          !((acceptedRow r d1 now1).status == RideStatus.ACCEPTED &&
            (acceptedRow r d1 now1).driver_id == some d2)) = true := by
        simp [acceptedRow, acceptValidStatuses, hne]
      simp only [acceptRideWith]
      rw [hcond3, if_pos rfl]

/-- Witness for C6: on a one-row table with an open PENDING ride, driver 2
wins the race and driver 3's attempt fails Unavailable under both a stale
and a fresh snapshot. -/
theorem acceptRide_exclusive_witness :
    ([openPendingW].filter (fun x => x.id == 7) = [openPendingW]) ∧
    ((acceptRideWith [openPendingW] (some openPendingW) 7 2 10).1
      = .ok (acceptedRow openPendingW 2 10) ∧
    (acceptRideWith (acceptRideWith [openPendingW] (some openPendingW) 7 2 10).2
      (some openPendingW) 7 3 11).1 = .error .Unavailable ∧
    (acceptRideWith (acceptRideWith [openPendingW] (some openPendingW) 7 2 10).2
      ((acceptRideWith [openPendingW] (some openPendingW) 7 2 10).2.find?
        (fun x => x.id == 7)) 7 3 11).1 = .error .Unavailable) :=
  ⟨by decide,
    (acceptRide_exclusive [openPendingW] 7 2 3 openPendingW 10 11
      (by decide)).2.2 rfl rfl (by decide)⟩

/-! ## Theorems for the periodic-process claims -/

theorem foldl_point_updates (f : Ride → Ride) (sl : List Ride) (init : List Ride) :
    sl.foldl (fun acc s => acc.map fun x => if x.id == s.id then f x else x) init
      = init.map (fun x => sl.foldl (fun y s => if y.id == s.id then f y else y) x) := by
  induction sl generalizing init with
  | nil => simp
  | cons s t ih =>
    rw [List.foldl_cons, ih, List.map_map]
    rfl

theorem point_update_foldl_fix (f : Ride → Ride) (sl : List Ride) (x : Ride)
    (hidem : f (f x) = f x) :
    sl.foldl (fun y s => if y.id == s.id then f y else y) (f x) = f x := by
  induction sl with
  | nil => rfl
  | cons s t ih =>
    rw [List.foldl_cons]
    by_cases hs : ((f x).id == s.id) = true
    · rw [if_pos hs, hidem]
      exact ih
    · rw [if_neg hs]
      exact ih

theorem point_update_foldl (f : Ride → Ride) (sl : List Ride) (x : Ride)
    (hinj : ∀ s ∈ sl, s.id = x.id → s = x)
    (hidem : f (f x) = f x) :
    sl.foldl (fun y s => if y.id == s.id then f y else y) x
      = if sl.any (fun s => s.id == x.id) then f x else x := by
  induction sl with
  | nil => rfl
  | cons s t ih =>
    rw [List.foldl_cons, List.any_cons]
    by_cases hs : (x.id == s.id) = true
    · have hsx : s = x :=
        hinj s (List.mem_cons_self s t) (beq_iff_eq.mp hs).symm

      rw [if_pos hs, point_update_foldl_fix f t x hidem, hsx]
      rw [if_pos (by simp)]
    · have hxn : x.id ≠ s.id := by simpa using hs
      have hs' : (s.id == x.id) = false := beq_eq_false_iff_ne.mpr (Ne.symm hxn)
      rw [if_neg hs, ih (fun a ha h => hinj a (List.mem_cons_of_mem s ha) h),
        hs', Bool.false_or]

/-- **C8.** One run of the driver-hoarding check rewrites exactly the
rides with status ACCEPTED whose `updated_at` is older than the 20-minute
window — each such ride is reclaimed: status back to PENDING, driver
cleared, dispatch_batch reset to 1, `updated_at` and the last-offer
timestamp stamped to now, the reassignment note recorded — while every
other ride (any other status, or a fresh ACCEPTED one) is left unchanged. -/
theorem hoarding_reaper_reclaims (now : Int) (rides : List Ride)
    (hnd : (rides.map Ride.id).Nodup) :
    handleStuckAcceptedRides now rides
      = rides.map (fun r => if stuckAcceptedCond now r then reclaimRide now r else r) := by
  unfold handleStuckAcceptedRides
  rw [foldl_point_updates]
  refine List.map_congr_left ?_
  intro x hx
  have hinj : ∀ s ∈ rides.filter (stuckAcceptedCond now), s.id = x.id → s = x :=
    fun s hs h => List.inj_on_of_nodup_map hnd (List.mem_of_mem_filter hs) hx h
  rw [point_update_foldl (reclaimRide now) _ x hinj rfl]
  by_cases hc : stuckAcceptedCond now x = true
  · have hany : ((rides.filter (stuckAcceptedCond now)).any
        (fun s => s.id == x.id)) = true :=
      List.any_eq_true.mpr ⟨x, List.mem_filter.mpr ⟨hx, hc⟩, by simp⟩
    rw [hany, if_pos rfl, if_pos hc]
  · have hany : ((rides.filter (stuckAcceptedCond now)).any
        (fun s => s.id == x.id)) = false := by
      rw [List.any_eq_false]
      intro s hs hsid
      exact hc (List.of_mem_filter (hinj s hs (by simpa using hsid) ▸ hs))
    rw [hany, if_neg Bool.false_ne_true, if_neg hc]

/-- Witness for C8: at clock 1800000 ms, an ACCEPTED ride last touched at
time 0 (older than the 20-minute window) is reclaimed, while a PENDING
ride is untouched. -/
theorem hoarding_reaper_reclaims_witness :
    (([staleAcceptedW, baseRideW].map Ride.id).Nodup) ∧
    handleStuckAcceptedRides 1800000 [staleAcceptedW, baseRideW]
      = [staleAcceptedW, baseRideW].map
          (fun r => if stuckAcceptedCond 1800000 r then reclaimRide 1800000 r else r) :=
  ⟨by decide, hoarding_reaper_reclaims 1800000 [staleAcceptedW, baseRideW] (by decide)⟩

theorem activate_foldl_rides (now : Int) (sel : List Ride) (init : ActivationOutcome) :
    (sel.foldl (activateOne now) init).rides
      = sel.foldl
          (fun acc s => acc.map fun x => if x.id == s.id then activateRideRow now x else x)
          init.rides := by
  induction sel generalizing init with
  | nil => rfl
  | cons s t ih =>
    rw [List.foldl_cons, List.foldl_cons, ih]
    congr 1
    unfold activateOne
    cases s.driver_id <;> rfl

theorem activate_foldl_matcher (now : Int) (sel : List Ride) (init : ActivationOutcome) :
    (sel.foldl (activateOne now) init).matcherCalls
      = init.matcherCalls ++ (sel.filter (fun s => s.driver_id.isNone)).map Ride.id := by
  induction sel generalizing init with
  | nil => simp
  | cons s t ih =>
    rw [List.foldl_cons, ih]
    cases hd : s.driver_id with
    | none =>
      rw [List.filter_cons_of_pos (by simp [hd])]
      simp [activateOne, hd]
    | some d =>
      rw [List.filter_cons_of_neg (by simp [hd])]
      simp [activateOne, hd]

set_option maxRecDepth 8000 in
set_option maxHeartbeats 1000000 in
/-- **C9 (counterexample).** With 51 SCHEDULED rides all inside the
20-minute lookahead window, one activator run leaves one of them (ride 50)
still SCHEDULED: the query reads at most 50 rows (`.limit(50)`), so "every
ride within the window" is not activated by the run. -/
theorem activator_limit_counterexample :
    (db51.all (fun r => activationCond 0 r) = true) ∧
    ((activateScheduledRides 0 db51).rides.filter
        (fun r => r.status == RideStatus.SCHEDULED)).map Ride.id = [50] := by
  constructor
  · decide
  · decide

/-- **C9 (amended).** For every ride in the batch the activator actually
selects — the first 50 rides with status SCHEDULED whose scheduled time is
within the 20-minute lookahead — the run sets status PENDING with
`dispatch_batch` 1 and fresh `updated_at` / last-offer timestamps; when a
driver is attached the matching collaborator is not invoked for that ride
(the driver is only notified), and when no driver is attached it is
invoked exactly once for the ride; rides outside the selected batch are
left unchanged and never passed to the matcher.  (A single run activates
at most 50 rides; the original claim's "every ride within the window"
fails once more than 50 qualify.) -/
theorem activator_batch_behavior (now : Int) (rides : List Ride) (r : Ride)
    (hnd : (rides.map Ride.id).Nodup) (hr : r ∈ rides) :
    (r ∈ (rides.filter (activationCond now)).take 50 →
      activateRideRow now r ∈ (activateScheduledRides now rides).rides ∧
      ((activateScheduledRides now rides).matcherCalls.count r.id
        = if r.driver_id.isNone then 1 else 0)) ∧
    (r ∉ (rides.filter (activationCond now)).take 50 →
      r ∈ (activateScheduledRides now rides).rides ∧
      r.id ∉ (activateScheduledRides now rides).matcherCalls) := by
  have hsub : ((rides.filter (activationCond now)).take 50).Sublist rides :=
    (List.take_sublist 50 _).trans (List.filter_sublist _)
  have hinj : ∀ s ∈ (rides.filter (activationCond now)).take 50,
      s.id = r.id → s = r :=
    fun s hs h => List.inj_on_of_nodup_map hnd (hsub.subset hs) hr h
  have hmc : (activateScheduledRides now rides).matcherCalls
      = (((rides.filter (activationCond now)).take 50).filter
          (fun s => s.driver_id.isNone)).map Ride.id := by
    unfold activateScheduledRides
    rw [activate_foldl_matcher]
    exact List.nil_append _
  have hrid : (activateScheduledRides now rides).rides
      = rides.map (fun x => ((rides.filter (activationCond now)).take 50).foldl
          (fun y s => if y.id == s.id then activateRideRow now y else y) x) := by
    unfold activateScheduledRides
    rw [activate_foldl_rides, foldl_point_updates]
  have hselnd : ((((rides.filter (activationCond now)).take 50).filter
      (fun s => s.driver_id.isNone)).map Ride.id).Nodup := by
    have h1 : (((rides.filter (activationCond now)).take 50).filter
        (fun s => s.driver_id.isNone)).Sublist rides :=
      (List.filter_sublist _).trans hsub
    exact (h1.map Ride.id).nodup hnd
  constructor
  · intro hmem
    have hFr : ((rides.filter (activationCond now)).take 50).foldl
        (fun y s => if y.id == s.id then activateRideRow now y else y) r
        = activateRideRow now r := by
      rw [point_update_foldl _ _ _ hinj rfl]
      rw [List.any_eq_true.mpr ⟨r, hmem, by simp⟩, if_pos rfl]
    constructor
    · rw [hrid]
      exact List.mem_map.mpr ⟨r, hr, hFr⟩
    · rw [hmc]
      by_cases hdn : r.driver_id.isNone = true
      · rw [if_pos hdn]
        exact List.count_eq_one_of_mem hselnd
          (List.mem_map_of_mem Ride.id (List.mem_filter.mpr ⟨hmem, hdn⟩))
      · rw [if_neg hdn]
        rw [List.count_eq_zero]
        intro hin
        obtain ⟨s, hs, hsid⟩ := List.mem_map.mp hin
        have hsr : s = r := hinj s (List.mem_filter.mp hs).1 hsid
        exact hdn (hsr ▸ (List.mem_filter.mp hs).2)
  · intro hmem
    have hany : (((rides.filter (activationCond now)).take 50).any
        (fun s => s.id == r.id)) = false := by
      rw [List.any_eq_false]
      intro s hs hsid
      exact hmem ((hinj s hs (by simpa using hsid)) ▸ hs)
    constructor
    · rw [hrid]
      have hFr : ((rides.filter (activationCond now)).take 50).foldl
          (fun y s => if y.id == s.id then activateRideRow now y else y) r = r := by
        rw [point_update_foldl _ _ _ hinj rfl, hany, if_neg Bool.false_ne_true]
      exact List.mem_map.mpr ⟨r, hr, hFr⟩
    · rw [hmc]
      intro hin
      obtain ⟨s, hs, hsid⟩ := List.mem_map.mp hin
      exact hmem ((hinj s (List.mem_filter.mp hs).1 hsid) ▸ (List.mem_filter.mp hs).1)

/-- Witness for the amended C9: a two-ride table (one unassigned SCHEDULED
ride, one pre-assigned SCHEDULED ride), both selected; the unassigned one
is activated and dispatched to the matcher exactly once. -/
theorem activator_batch_behavior_witness :
    (([schedRideW, schedAssignedW].map Ride.id).Nodup) ∧
    (schedRideW ∈ [schedRideW, schedAssignedW]) ∧
    ((schedRideW ∈ ([schedRideW, schedAssignedW].filter (activationCond 0)).take 50 →
        activateRideRow 0 schedRideW
          ∈ (activateScheduledRides 0 [schedRideW, schedAssignedW]).rides ∧
        ((activateScheduledRides 0 [schedRideW, schedAssignedW]).matcherCalls.count
            schedRideW.id
          = if schedRideW.driver_id.isNone then 1 else 0)) ∧
     (schedRideW ∉ ([schedRideW, schedAssignedW].filter (activationCond 0)).take 50 →
        schedRideW ∈ (activateScheduledRides 0 [schedRideW, schedAssignedW]).rides ∧
        schedRideW.id ∉ (activateScheduledRides 0 [schedRideW, schedAssignedW]).matcherCalls)) :=
  ⟨by decide, by decide,
    activator_batch_behavior 0 [schedRideW, schedAssignedW] schedRideW
      (by decide) (by decide)⟩

end MyRide
